import Mathlib

/-!
Shallow embedding of `cratesio-dbdump-csvtab` (`src/lib.rs`).

The crate coordinates three external collaborators (a fetch cache, a tar.gz
extractor, a SQLite engine).  We embed the crate's own control flow exactly,
and model each collaborator call as an observation supplied by a `World`
structure: every filesystem / cache / database call the code makes reads its
result from the world.  Paths (`PathBuf`) are modelled as `String`, with
`Path::join` modelled as inserting a `/` separator.  Rust panics
(`unwrap` on `Err`/`None`) are modelled by a dedicated `RunResult.panic`
outcome, distinct from returning an `Error`.
-/

namespace Cratesio

/-- Opaque payload of `cached_path::Error`. -/
structure CachedError where
  code : Nat
deriving Repr, DecidableEq

/-- Opaque payload of `rusqlite::Error`. -/
structure SqliteError where
  code : Nat
deriving Repr, DecidableEq

/-- Opaque payload of `std::io::Error`. -/
structure IOErr where
  code : Nat
deriving Repr, DecidableEq

/-- The crate's `Error` enum (`lib.rs` lines 16-26). -/
inductive Error where
  | NotFound (e : CachedError)
  | RusqliteError (e : SqliteError)
  | IOError (e : IOErr)
deriving Repr, DecidableEq

/-- Opaque model of `cached_path::Cache`. -/
structure Cache where
  id : Nat
deriving Repr, DecidableEq

/-- Model of `cached_path::CacheBuilder`: all the crate does with it is call
`build()`, so the builder is modelled by the result of that call. -/
structure CacheBuilder where
  buildResult : Except CachedError Cache
deriving Repr

/-! ### Path helpers (model of the `std::path` operations the crate uses) -/

/-- Model of `Path::join` for a relative right operand. -/
def joinPath (a b : String) : String := a ++ "/" ++ b

/-- Splits a character list at its LAST dot: returns `(before, after)`.
`none` when no dot occurs.  Helper for `file_stem` / `set_extension`. -/
def lastDotSplit : List Char → Option (List Char × List Char)
  | [] => none
  | c :: rest =>
    match lastDotSplit rest with
    | some (a, b) => some (c :: a, b)
    | none => if c = '.' then some ([], rest) else none

/-- Stem of a single path component, per Rust `file_stem` on a file name:
everything before the last dot, except that a leading dot does not count
(`.hidden` is its own stem). -/
def stemOfFileName (s : String) : String :=
  match s.toList with
  | [] => ""
  | c :: rest =>
    match lastDotSplit rest with
    | some (a, _) => String.mk (c :: a)
    | none => s

/-- Splits a character list at `/` separators (the component list of the
path, empty components included). -/
def splitSlash : List Char → List (List Char)
  | [] => [[]]
  | c :: rest =>
    match splitSlash rest with
    | [] => [[c]]
    | hd :: tl => if c = '/' then [] :: hd :: tl else (c :: hd) :: tl

/-- Model of Rust `Path::file_name`: the last normal component, `none` for
an empty path or a path ending in `..`. -/
def fileName (p : String) : Option String :=
  let comps := (splitSlash p.toList).map (fun cs => String.mk cs)
  match (comps.filter (fun c => c != "" && c != ".")).getLast? with
  | none => none
  | some c => if c = ".." then none else some c

/-- Model of `path.file_stem().unwrap_or_default().to_string_lossy()`. -/
def pathFileStem (p : String) : String :=
  ((fileName p).map stemOfFileName).getD ""

/-- `tables_to_files` (`lib.rs` lines 221-231): each table name `t` becomes a
fresh `PathBuf` with file name `t` and extension `csv`.  `set_extension`
leaves a path without a file name unchanged. -/
def tables_to_files (tables : List String) : List String :=
  tables.map (fun t =>
    if (fileName t).isSome then stemOfFileName t ++ ".csv" else t)

/-! ### The loader configuration -/

/-- `CratesIODumpLoader` (`lib.rs` lines 28-36).  The `HashMap` is modelled
as an association list with insert-or-replace. -/
structure CratesIODumpLoader where
  resource : String
  files : List String
  cache : Cache
  target_path : String
  preload : Bool
  table_schema : List (String × String)
deriving Repr, DecidableEq

/-- Insert-or-replace for the association-list model of `HashMap::insert`. -/
def mapInsert (m : List (String × String)) (k v : String) :
    List (String × String) :=
  match m with
  | [] => [(k, v)]
  | (k0, v0) :: rest =>
    if k0 = k then (k, v) :: rest else (k0, v0) :: mapInsert rest k v

/-- `Default::default()` (`lib.rs` lines 38-65); `Cache::new().unwrap()` is an
external effect, so the built cache is a parameter. -/
def defaultLoader (c : Cache) : CratesIODumpLoader :=
  { resource := "https://static.crates.io/db-dump.tar.gz"
    files := tables_to_files
      ["badges", "categories", "crate_owners", "crates", "crates_categories",
       "crates_keywords", "dependencies", "keywords", "metadata",
       "reserved_crate_names", "teams", "users", "version_authors",
       "version_downloads", "versions"]
    cache := c
    target_path := "data"
    table_schema := []
    preload := false }

namespace CratesIODumpLoader

/-- Fluent setter `resource` (`lib.rs` lines 68-71). -/
def setResource (l : CratesIODumpLoader) (path : String) :
    CratesIODumpLoader :=
  { l with resource := path }

/-- Fluent setter `files` (`lib.rs` lines 73-76). -/
def setFiles (l : CratesIODumpLoader) (files : List String) :
    CratesIODumpLoader :=
  { l with files := files }

/-- Fluent setter `tables` (`lib.rs` lines 78-81). -/
def setTables (l : CratesIODumpLoader) (tables : List String) :
    CratesIODumpLoader :=
  { l with files := tables_to_files tables }

/-- Fluent setter `table_schema` (`lib.rs` lines 83-87). -/
def setTableSchema (l : CratesIODumpLoader) (table schema : String) :
    CratesIODumpLoader :=
  { l with table_schema := mapInsert l.table_schema table schema }

/-- Fluent setter `target_path` (`lib.rs` lines 89-92). -/
def setTargetPath (l : CratesIODumpLoader) (path : String) :
    CratesIODumpLoader :=
  { l with target_path := path }

/-- Fluent setter `cache` (`lib.rs` lines 94-97): `builder.build()?` can fail
with a `cached_path` error, converted to `Error::NotFound`. -/
def setCache (l : CratesIODumpLoader) (builder : CacheBuilder) :
    Except Error CratesIODumpLoader :=
  match builder.buildResult with
  | .error e => .error (.NotFound e)
  | .ok c => .ok { l with cache := c }

/-- Fluent setter `preload` (`lib.rs` lines 99-102). -/
def setPreload (l : CratesIODumpLoader) (should : Bool) :
    CratesIODumpLoader :=
  { l with preload := should }

/-- `minimal` (`lib.rs` lines 104-106). -/
def minimal (l : CratesIODumpLoader) : CratesIODumpLoader :=
  l.setTables ["crates", "dependencies", "versions"]

/-- `sqlite_path` (`lib.rs` lines 138-140). -/
def sqlite_path (l : CratesIODumpLoader) : String :=
  joinPath l.target_path "db.sqlite"

end CratesIODumpLoader

/-! ### Query generation (`file_to_query`, `lib.rs` lines 177-218)

The two `format!` raw strings of the source (one per arm of the match on
`table_schema.get`) and the preload `format!` are reproduced verbatim,
including their indentation, as `vtab_block` and `ptab_block`. -/

/-- The virtual-table block: the body of the `match self.table_schema.get`
in `file_to_query`, for a given virtual-table name, data-file path, and
optional schema string. -/
def vtab_block (vtable file : String) (schema : Option String) : String :=
  match schema with
  | some s =>
    "\n                    DROP TABLE IF EXISTS " ++ vtable ++
    ";\n                    CREATE VIRTUAL TABLE " ++ vtable ++
    " USING csv(filename='" ++ file ++ "',header=yes,schema='" ++ s ++
    "');\n                "
  | none =>
    "\n                    DROP TABLE IF EXISTS " ++ vtable ++
    ";\n                    CREATE VIRTUAL TABLE " ++ vtable ++
    " USING csv(filename='" ++ file ++ "',header=yes);\n                "

/-- The materialization block `ptab` emitted when preload is on. -/
def ptab_block (table vtable : String) : String :=
  "\n                    DROP TABLE IF EXISTS " ++ table ++
  ";\n                    CREATE TABLE " ++ table ++
  " AS SELECT * FROM " ++ vtable ++ ";\n                "

namespace CratesIODumpLoader

/-- `file_to_query` (`lib.rs` lines 177-218). -/
def file_to_query (l : CratesIODumpLoader) (path : String) : String :=
  let actual_file := joinPath l.target_path path
  let table := pathFileStem path
  let vtable := match l.preload with
    | true => "temp_" ++ table
    | false => table
  let vtab := vtab_block vtable actual_file (List.lookup table l.table_schema)
  match l.preload with
  | true => vtab ++ "\n" ++ ptab_block table vtable
  | false => vtab

/-- The schema batch built in `load_dump_into` (`lib.rs` lines 167-171):
`files.iter().map(file_to_query).fold(String::new(), |a, b| a + b + "\n")`. -/
def schemaBatch (l : CratesIODumpLoader) : String :=
  (l.files.map (fun f => l.file_to_query f)).foldl
    (fun a b => a ++ b ++ "\n") ""

end CratesIODumpLoader

/-! ### Worlds, events and run results

Every collaborator call in `update` / `open_db` / `load_dump_into` reads its
result from a world structure; externally visible actions are recorded as an
ordered event trace. -/

deriving instance DecidableEq for Except

/-- One observable action performed by the loader. -/
inductive Event where
  /-- `f.unpack(target)` succeeded, writing the file at `target`. -/
  | unpacked (target : String)
  /-- `std::fs::remove_file` deleted the database file. -/
  | removedDb
  /-- `Connection::open` opened (creating if absent) the database file. -/
  | connOpened
  /-- `rusqlite::vtab::csvtab::load_module` was loaded on the handle. -/
  | moduleLoaded
  /-- `db.execute_batch(sql)` was invoked, in one call, with `sql`. -/
  | batchExecuted (sql : String)
deriving Repr, DecidableEq

/-- Outcome of running one loader operation: a Rust panic, or an ordered
event trace together with the returned `Result`. -/
inductive RunResult where
  | panic : RunResult
  | out (events : List Event) (result : Except Error Unit) : RunResult
deriving Repr, DecidableEq

/-- Observations for one path: the result of `Path::exists()` and of
`metadata()?.created()?` (collapsed into one fallible timestamp read).
The two are separate syscall observations; the code never assumes they
agree (see `open_db`, where `created` is read for a path whose `exists`
just returned false). -/
structure FileObs where
  exists' : Bool
  created : Except IOErr Nat
deriving Repr

/-- One tar archive entry as observed by the extraction loop:
`f.path()` may fail (modelled as `none`, which `unwrap_or_default`
turns into the empty path) and `f.unpack(..)` may fail. -/
structure ArchiveEntry where
  pathRes : Option String
  unpackRes : Except IOErr Unit
deriving Repr

/-- World for `update` (`lib.rs` lines 108-136). -/
structure UpdateWorld where
  /-- `self.cache.cached_path(&self.resource)` -/
  cachedPath : Except CachedError String
  /-- per-path filesystem observations -/
  fs : String → FileObs
  /-- `File::open(path)` on the cached archive -/
  openArchive : Except IOErr Unit
  /-- `create_dir_all(&self.target_path)` -/
  createDir : Except IOErr Unit
  /-- `archive.entries()`: the iterator, whose items are `io::Result<Entry>` -/
  entriesRes : Except IOErr (List (Except IOErr ArchiveEntry))

/-- World for `open_db` / `load_dump_into` (`lib.rs` lines 142-175). -/
structure OpenWorld where
  /-- per-path filesystem observations -/
  fs : String → FileObs
  /-- `std::fs::remove_file(&path)` -/
  removeFile : Except IOErr Unit
  /-- `Connection::open(&path)` -/
  connOpen : Except SqliteError Unit
  /-- `rusqlite::vtab::csvtab::load_module(&db)` -/
  loadModule : Except SqliteError Unit
  /-- `db.execute_batch(schema)` -/
  execBatch : Except SqliteError Unit

namespace CratesIODumpLoader

/-- The extraction loop of `update` (`lib.rs` lines 125-134): for each
entry (`file.unwrap()` panics on an unreadable entry), compute the base
file name (`f.path().unwrap_or_default().file_name()`, empty on failure)
and unpack it into the target directory iff it is one of the requested
files; `f.unpack(..)?` propagates I/O failures. -/
def unpack_entries (files : List String) (target : String) :
    List (Except IOErr ArchiveEntry) → RunResult
  | [] => .out [] (.ok ())
  | .error _ :: _ => .panic
  | .ok ent :: rest =>
    let aname := (fileName (ent.pathRes.getD "")).getD ""
    if files.contains aname then
      match ent.unpackRes with
      | .error e => .out [] (.error (.IOError e))
      | .ok _ =>
        match unpack_entries files target rest with
        | .panic => .panic
        | .out evs r => .out (.unpacked (joinPath target aname) :: evs) r
    else
      unpack_entries files target rest

/-- The extraction phase of `update` (`lib.rs` lines 119-134): open the
cached archive (`File::open(path)?`), create the target directory
(`create_dir_all(..)?`), then iterate `archive.entries().unwrap()`
(panicking if the iterator cannot be created) through `unpack_entries`. -/
def update_extract (l : CratesIODumpLoader) (w : UpdateWorld) : RunResult :=
  match w.openArchive with
  | .error e => .out [] (.error (.IOError e))
  | .ok _ =>
    match w.createDir with
    | .error e => .out [] (.error (.IOError e))
    | .ok _ =>
      match w.entriesRes with
      | .error _ => .panic
      | .ok entries => unpack_entries l.files l.target_path entries

/-- `update` (`lib.rs` lines 108-136): resolve the resource through the
cache (`?` turns failures into `NotFound`), read the first requested file
(`self.files.first().unwrap()` panics on an empty list), and skip
extraction when that file exists and the archive's creation time is not
later than the file's (`path.metadata()?.created()? <= ..`, each `?`
propagating an `IOError`).  Otherwise extract. -/
def update (l : CratesIODumpLoader) (w : UpdateWorld) : RunResult :=
  match w.cachedPath with
  | .error e => .out [] (.error (.NotFound e))
  | .ok path =>
    match l.files with
    | [] => .panic
    | f0 :: _ =>
      let first_local_file := joinPath l.target_path f0
      if (w.fs first_local_file).exists' then
        match (w.fs path).created with
        | .error e => .out [] (.error (.IOError e))
        | .ok tArchive =>
          match (w.fs first_local_file).created with
          | .error e => .out [] (.error (.IOError e))
          | .ok tFirst =>
            if tArchive ≤ tFirst then .out [] (.ok ())
            else l.update_extract w
      else l.update_extract w

/-- `load_dump_into` (`lib.rs` lines 166-175): build the schema batch and
execute it against the connection in a single `execute_batch` call;
an engine failure propagates as `RusqliteError`. -/
def load_dump_into (l : CratesIODumpLoader) (w : OpenWorld) : RunResult :=
  match w.execBatch with
  | .error e => .out [.batchExecuted l.schemaBatch] (.error (.RusqliteError e))
  | .ok _ => .out [.batchExecuted l.schemaBatch] (.ok ())

end CratesIODumpLoader

/-- The freshness decision at the top of `open_db` (`lib.rs` lines 145-155):
returns `(should_load, events)` or the `io::Error` propagated by a `?`.
Mirrors the short-circuit evaluation of
`!first_local_file.exists() && path.exists() && path.metadata()?.created()?
<= first_local_file.metadata()?.created()?` and the `remove_file(&path)?`
in the taken branch. -/
def open_db_decision (w : OpenWorld) (path first_local_file : String) :
    Except IOErr (Bool × List Event) :=
  if ¬ (w.fs path).exists' then .ok (true, [])
  else
    if ¬ (w.fs first_local_file).exists' then
      if (w.fs path).exists' then
        match (w.fs path).created with
        | .error e => .error e
        | .ok tDb =>
          match (w.fs first_local_file).created with
          | .error e => .error e
          | .ok tFirst =>
            if tDb ≤ tFirst then
              match w.removeFile with
              | .error e => .error e
              | .ok _ => .ok (true, [.removedDb])
            else .ok (false, [])
      else .ok (false, [])
    else .ok (false, [])

namespace CratesIODumpLoader

/-- `open_db` (`lib.rs` lines 142-164): compute the db path, read the first
requested file (`unwrap` panics on an empty list), take the freshness
decision, then `Connection::open(&path)?`, `csvtab::load_module(&db)?`,
and when loading is required `self.load_dump_into(&db)?`. -/
def open_db (l : CratesIODumpLoader) (w : OpenWorld) : RunResult :=
  match l.files with
  | [] => .panic
  | f0 :: _ =>
    let path := l.sqlite_path
    let first_local_file := joinPath l.target_path f0
    match open_db_decision w path first_local_file with
    | .error e => .out [] (.error (.IOError e))
    | .ok (should_load, evs) =>
      match w.connOpen with
      | .error e => .out evs (.error (.RusqliteError e))
      | .ok _ =>
        match w.loadModule with
        | .error e => .out (evs ++ [.connOpened]) (.error (.RusqliteError e))
        | .ok _ =>
          if should_load then
            match l.load_dump_into w with
            | .panic => .panic
            | .out evs2 r =>
              .out (evs ++ [.connOpened, .moduleLoaded] ++ evs2) r
          else
            .out (evs ++ [.connOpened, .moduleLoaded]) (.ok ())

end CratesIODumpLoader

/-! ### Helper lemmas -/

/-- `mapInsert` makes the inserted key map to the inserted value. -/
theorem lookup_mapInsert_self (m : List (String × String)) (k v : String) :
    List.lookup k (mapInsert m k v) = some v := by
  induction m with
  | nil => simp [mapInsert, List.lookup]
  | cons kv rest ih =>
    obtain ⟨k0, v0⟩ := kv
    by_cases h : k0 = k
    · simp [mapInsert, h, List.lookup]
    · simp only [mapInsert, if_neg h, List.lookup]
      have hne : (k == k0) = false := by
        simp [Ne.symm h]
      simp [hne, ih]

/-- `mapInsert` leaves every other key's binding unchanged. -/
theorem lookup_mapInsert_ne (m : List (String × String)) (k k' v : String)
    (h : k' ≠ k) :
    List.lookup k' (mapInsert m k v) = List.lookup k' m := by
  have hbe : (k' == k) = false := by simp [h]
  induction m with
  | nil => simp [mapInsert, List.lookup, hbe]
  | cons kv rest ih =>
    obtain ⟨k0, v0⟩ := kv
    by_cases h0 : k0 = k
    · subst h0
      simp [mapInsert, List.lookup, hbe, ih]
    · simp only [mapInsert, if_neg h0, List.lookup]
      cases hb0 : (k' == k0) <;> simp [ih]

/-- The staging name never equals the base name. -/
theorem temp_prefix_ne (t : String) : "temp_" ++ t ≠ t := by
  intro h
  have hlen := congrArg String.length h
  rw [String.length_append] at hlen
  have h5 : ("temp_" : String).length = 5 := rfl
  rw [h5] at hlen
  omega

/-- The left fold with trailing separators equals a plain concatenation of
the separated blocks, in order. -/
theorem foldl_sep_eq_foldr (xs : List String) (acc : String) :
    xs.foldl (fun a b => a ++ b ++ "\n") acc
      = acc ++ (xs.map (fun s => s ++ "\n")).foldr (fun a b => a ++ b) "" := by
  induction xs generalizing acc with
  | nil => simp [String.append_empty]
  | cons x xs ih =>
    simp only [List.foldl, List.map, List.foldr]
    rw [ih]
    simp only [String.append_assoc]

/-! ### Claims -/

/-- C4: for a requested table with base name `t`, when preload is on the
virtual-table name is `temp_t` (distinct from `t`) and the block is followed
by `DROP TABLE IF EXISTS t;` and `CREATE TABLE t AS SELECT * FROM temp_t;`;
when preload is off the virtual-table name is `t` and only the
virtual-table block is emitted. -/
theorem c4_preload_naming :
    ∀ (l : CratesIODumpLoader) (f : String),
      (l.preload = true →
        l.file_to_query f =
          vtab_block ("temp_" ++ pathFileStem f) (joinPath l.target_path f)
              (List.lookup (pathFileStem f) l.table_schema)
            ++ "\n"
            ++ ("\n                    DROP TABLE IF EXISTS " ++
                pathFileStem f ++
                ";\n                    CREATE TABLE " ++ pathFileStem f ++
                " AS SELECT * FROM " ++ ("temp_" ++ pathFileStem f) ++
                ";\n                ")
          ∧ "temp_" ++ pathFileStem f ≠ pathFileStem f) ∧
      (l.preload = false →
        l.file_to_query f =
          vtab_block (pathFileStem f) (joinPath l.target_path f)
            (List.lookup (pathFileStem f) l.table_schema)) := by
  intro l f
  constructor
  · intro hp
    refine ⟨?_, temp_prefix_ne _⟩
    simp [CratesIODumpLoader.file_to_query, hp, ptab_block]
  · intro hp
    simp [CratesIODumpLoader.file_to_query, hp]

/-- Witness for C4 at a concrete loader and file. -/
theorem c4_preload_naming_witness :
    CratesIODumpLoader.file_to_query
        { resource := "r", files := ["test.csv"], cache := ⟨0⟩,
          target_path := "d", preload := true, table_schema := [] }
        "test.csv"
      = vtab_block ("temp_" ++ pathFileStem "test.csv")
            (joinPath "d" "test.csv")
            (List.lookup (pathFileStem "test.csv") ([] : List (String × String)))
          ++ "\n"
          ++ ("\n                    DROP TABLE IF EXISTS " ++
              pathFileStem "test.csv" ++
              ";\n                    CREATE TABLE " ++ pathFileStem "test.csv" ++
              " AS SELECT * FROM " ++ ("temp_" ++ pathFileStem "test.csv") ++
              ";\n                ") :=
  ((c4_preload_naming
      { resource := "r", files := ["test.csv"], cache := ⟨0⟩,
        target_path := "d", preload := true, table_schema := [] }
      "test.csv").1 rfl).1

/-- C5: when an explicit schema string is registered for a table's base
name, the generated virtual-table creation passes that schema verbatim
(together with `header=yes` and the destination path); with no registered
schema, no schema argument is passed. -/
theorem c5_schema_override :
    ∀ (l : CratesIODumpLoader) (f : String),
      (∀ s, List.lookup (pathFileStem f) l.table_schema = some s →
        ∃ tail, l.file_to_query f =
          "\n                    DROP TABLE IF EXISTS " ++
          (if l.preload then "temp_" ++ pathFileStem f else pathFileStem f) ++
          ";\n                    CREATE VIRTUAL TABLE " ++
          (if l.preload then "temp_" ++ pathFileStem f else pathFileStem f) ++
          " USING csv(filename='" ++ joinPath l.target_path f ++
          "',header=yes,schema='" ++ s ++ "');\n                " ++ tail) ∧
      (List.lookup (pathFileStem f) l.table_schema = none →
        ∃ tail, l.file_to_query f =
          "\n                    DROP TABLE IF EXISTS " ++
          (if l.preload then "temp_" ++ pathFileStem f else pathFileStem f) ++
          ";\n                    CREATE VIRTUAL TABLE " ++
          (if l.preload then "temp_" ++ pathFileStem f else pathFileStem f) ++
          " USING csv(filename='" ++ joinPath l.target_path f ++
          "',header=yes);\n                " ++ tail) := by
  intro l f
  constructor
  · intro s hs
    cases hp : l.preload with
    | false =>
      refine ⟨"", ?_⟩
      simp only [CratesIODumpLoader.file_to_query, hp, hs, vtab_block]
      rw [if_neg Bool.false_ne_true, String.append_empty]
    | true =>
      refine ⟨"\n" ++ ptab_block (pathFileStem f)
        ("temp_" ++ pathFileStem f), ?_⟩
      simp only [CratesIODumpLoader.file_to_query, hp, hs, vtab_block,
        if_true]
      rw [String.append_assoc]
  · intro hs
    cases hp : l.preload with
    | false =>
      refine ⟨"", ?_⟩
      simp only [CratesIODumpLoader.file_to_query, hp, hs, vtab_block]
      rw [if_neg Bool.false_ne_true, String.append_empty]
    | true =>
      refine ⟨"\n" ++ ptab_block (pathFileStem f)
        ("temp_" ++ pathFileStem f), ?_⟩
      simp only [CratesIODumpLoader.file_to_query, hp, hs, vtab_block,
        if_true]
      rw [String.append_assoc]

/-- Witness for C5 at a concrete loader with a registered schema. -/
theorem c5_schema_override_witness :
    ∃ tail,
      CratesIODumpLoader.file_to_query
          { resource := "r", files := ["test.csv"], cache := ⟨0⟩,
            target_path := "d", preload := false,
            table_schema := [("test", "CREATE TABLE x(a INT);")] }
          "test.csv"
        = "\n                    DROP TABLE IF EXISTS " ++
          (if false then "temp_" ++ pathFileStem "test.csv"
           else pathFileStem "test.csv") ++
          ";\n                    CREATE VIRTUAL TABLE " ++
          (if false then "temp_" ++ pathFileStem "test.csv"
           else pathFileStem "test.csv") ++
          " USING csv(filename='" ++ joinPath "d" "test.csv" ++
          "',header=yes,schema='" ++ "CREATE TABLE x(a INT);" ++
          "');\n                " ++ tail :=
  (c5_schema_override
      { resource := "r", files := ["test.csv"], cache := ⟨0⟩,
        target_path := "d", preload := false,
        table_schema := [("test", "CREATE TABLE x(a INT);")] }
      "test.csv").1 "CREATE TABLE x(a INT);" (by decide)

/-- C8: `load_dump_into` concatenates the per-table blocks for every
requested file, in list order, each followed by a line break, and executes
the whole batch in one `execute_batch` call. -/
theorem c8_batch_concat :
    ∀ (l : CratesIODumpLoader) (w : OpenWorld),
      l.schemaBatch
        = (l.files.map (fun f => l.file_to_query f ++ "\n")).foldr
            (fun a b => a ++ b) "" ∧
      ∃ r, l.load_dump_into w = .out [.batchExecuted l.schemaBatch] r := by
  intro l w
  constructor
  · rw [CratesIODumpLoader.schemaBatch, foldl_sep_eq_foldr,
      String.empty_append]
    simp [List.map_map, Function.comp_def]
  · cases h : w.execBatch with
    | error e => exact ⟨.error (.RusqliteError e),
        by simp [CratesIODumpLoader.load_dump_into, h]⟩
    | ok u => exact ⟨.ok (), by simp [CratesIODumpLoader.load_dump_into, h]⟩

/-- C10: each fluent setter changes only its own field(s): `setResource`
only the resource, `setFiles` / `setTables` only the file list,
`setTableSchema` only the one given table's schema binding,
`setTargetPath` only the destination path, `setPreload` only the preload
flag, and `setCache` (on a successful build) only the cache. -/
theorem c10_setters_frame :
    ∀ (l : CratesIODumpLoader) (s : String) (fl tbs : List String)
      (tb sc p : String) (b : Bool) (cb : CacheBuilder) (c : Cache),
      ((l.setResource s).resource = s ∧
       (l.setResource s).files = l.files ∧
       (l.setResource s).cache = l.cache ∧
       (l.setResource s).target_path = l.target_path ∧
       (l.setResource s).preload = l.preload ∧
       (l.setResource s).table_schema = l.table_schema) ∧
      ((l.setFiles fl).files = fl ∧
       (l.setFiles fl).resource = l.resource ∧
       (l.setFiles fl).cache = l.cache ∧
       (l.setFiles fl).target_path = l.target_path ∧
       (l.setFiles fl).preload = l.preload ∧
       (l.setFiles fl).table_schema = l.table_schema) ∧
      ((l.setTables tbs).files = tables_to_files tbs ∧
       (l.setTables tbs).resource = l.resource ∧
       (l.setTables tbs).cache = l.cache ∧
       (l.setTables tbs).target_path = l.target_path ∧
       (l.setTables tbs).preload = l.preload ∧
       (l.setTables tbs).table_schema = l.table_schema) ∧
      ((l.setTableSchema tb sc).table_schema
          = mapInsert l.table_schema tb sc ∧
       List.lookup tb (l.setTableSchema tb sc).table_schema = some sc ∧
       (∀ k, k ≠ tb →
         List.lookup k (l.setTableSchema tb sc).table_schema
           = List.lookup k l.table_schema) ∧
       (l.setTableSchema tb sc).resource = l.resource ∧
       (l.setTableSchema tb sc).files = l.files ∧
       (l.setTableSchema tb sc).cache = l.cache ∧
       (l.setTableSchema tb sc).target_path = l.target_path ∧
       (l.setTableSchema tb sc).preload = l.preload) ∧
      ((l.setTargetPath p).target_path = p ∧
       (l.setTargetPath p).resource = l.resource ∧
       (l.setTargetPath p).files = l.files ∧
       (l.setTargetPath p).cache = l.cache ∧
       (l.setTargetPath p).preload = l.preload ∧
       (l.setTargetPath p).table_schema = l.table_schema) ∧
      ((l.setPreload b).preload = b ∧
       (l.setPreload b).resource = l.resource ∧
       (l.setPreload b).files = l.files ∧
       (l.setPreload b).cache = l.cache ∧
       (l.setPreload b).target_path = l.target_path ∧
       (l.setPreload b).table_schema = l.table_schema) ∧
      (cb.buildResult = .ok c →
        l.setCache cb = .ok { l with cache := c }) := by
  intro l s fl tbs tb sc p b cb c
  refine ⟨⟨rfl, rfl, rfl, rfl, rfl, rfl⟩, ⟨rfl, rfl, rfl, rfl, rfl, rfl⟩,
    ⟨rfl, rfl, rfl, rfl, rfl, rfl⟩,
    ⟨rfl, lookup_mapInsert_self _ _ _,
      fun k hk => lookup_mapInsert_ne _ _ _ _ hk,
      rfl, rfl, rfl, rfl, rfl⟩,
    ⟨rfl, rfl, rfl, rfl, rfl, rfl⟩, ⟨rfl, rfl, rfl, rfl, rfl, rfl⟩, ?_⟩
  intro h
  simp [CratesIODumpLoader.setCache, h]

/-- Witness for C10 at concrete arguments, exercising the conjuncts that
carry hypotheses (the other-key lookup and the cache build). -/
theorem c10_setters_frame_witness :
    List.lookup "other"
        ((defaultLoader ⟨0⟩).setTableSchema "test" "sch").table_schema
      = List.lookup "other" (defaultLoader ⟨0⟩).table_schema ∧
    (defaultLoader ⟨0⟩).setCache ⟨.ok ⟨3⟩⟩
      = .ok { defaultLoader ⟨0⟩ with cache := ⟨3⟩ } := by
  have h := c10_setters_frame (defaultLoader ⟨0⟩) "r" [] [] "test" "sch"
    "p" true ⟨.ok ⟨3⟩⟩ ⟨3⟩
  exact ⟨h.2.2.2.1.2.2.1 "other" (by decide), h.2.2.2.2.2.2 rfl⟩

/-! ### Auxiliary observers for the effectful operations -/

/-- The unpack events of a run (files written by extraction). -/
def unpackedEvents : RunResult → List Event
  | .panic => []
  | .out evs _ => evs.filter (fun e => match e with
      | .unpacked _ => true
      | _ => false)

/-- `moduleBeforeBatch evs seen` checks that every `batchExecuted` event in
`evs` is preceded by a `moduleLoaded` event (`seen` records whether one has
already occurred). -/
def moduleBeforeBatch : List Event → Bool → Bool
  | [], _ => true
  | .moduleLoaded :: rest, _ => moduleBeforeBatch rest true
  | .batchExecuted _ :: rest, seen => seen && moduleBeforeBatch rest seen
  | _ :: rest, seen => moduleBeforeBatch rest seen

/-- The base file name the extraction loop computes for an archive entry. -/
def entryBaseName (x : Except IOErr ArchiveEntry) : String :=
  match x with
  | .ok ent => (fileName (ent.pathRes.getD "")).getD ""
  | .error _ => ""

/-- The unpack events the extraction loop is expected to produce: one per
entry whose base name is among the requested files, in archive order. -/
def extractTargets (files : List String) (target : String)
    (entries : List (Except IOErr ArchiveEntry)) : List Event :=
  (entries.filter (fun x => files.contains (entryBaseName x))).map
    (fun x => .unpacked (joinPath target (entryBaseName x)))

/-- The archive iterator and every entry read succeed. -/
def EntriesOk (w : UpdateWorld) : Prop :=
  ∃ es, w.entriesRes = .ok es ∧ ∀ x ∈ es, ∃ ent, x = Except.ok ent

/-- C2: when the first requested table's destination file exists and the
cached archive's creation time is not later than that file's, `update`
succeeds without extracting anything; hence over two successive calls whose
second sees such a fresh state, all extraction happens in the first call. -/
theorem c2_staleness_skip :
    ∀ (l : CratesIODumpLoader) (w : UpdateWorld) (f0 : String)
      (rest : List String) (path : String) (t1 t2 : Nat),
      l.files = f0 :: rest →
      w.cachedPath = .ok path →
      (w.fs (joinPath l.target_path f0)).exists' = true →
      (w.fs path).created = .ok t1 →
      (w.fs (joinPath l.target_path f0)).created = .ok t2 →
      t1 ≤ t2 →
      l.update w = .out [] (.ok ()) ∧
      ∀ w1, unpackedEvents (l.update w1) ++ unpackedEvents (l.update w)
        = unpackedEvents (l.update w1) := by
  intro l w f0 rest path t1 t2 hf hcp hex ht1 ht2 hle
  have hrun : l.update w = .out [] (.ok ()) := by
    simp [CratesIODumpLoader.update, hf, hcp, hex, ht1, ht2, hle]
  refine ⟨hrun, fun w1 => ?_⟩
  rw [hrun]
  simp [unpackedEvents]

/-- Witness for C2 at a concrete loader and fresh world. -/
theorem c2_staleness_skip_witness :
    CratesIODumpLoader.update
        { resource := "r", files := ["crates.csv"], cache := ⟨0⟩,
          target_path := "data", preload := false, table_schema := [] }
        { cachedPath := .ok "arch",
          fs := fun p => if p = "data/crates.csv" then ⟨true, .ok 9⟩
            else ⟨false, .ok 3⟩,
          openArchive := .ok (), createDir := .ok (),
          entriesRes := .ok [] }
      = .out [] (.ok ()) :=
  (c2_staleness_skip
    { resource := "r", files := ["crates.csv"], cache := ⟨0⟩,
      target_path := "data", preload := false, table_schema := [] }
    { cachedPath := .ok "arch",
      fs := fun p => if p = "data/crates.csv" then ⟨true, .ok 9⟩
        else ⟨false, .ok 3⟩,
      openArchive := .ok (), createDir := .ok (),
      entriesRes := .ok [] }
    "crates.csv" [] "arch" 3 9 rfl rfl (by decide) (by decide) (by decide)
    (by decide)).1

/-- C1: when the database file is observed to exist, the sentinel extracted
file is observed missing, and the database's creation timestamp reads as
not later than the sentinel's, `open_db` deletes the database file and then
performs a fresh load (executes the schema batch on the new file). -/
theorem c1_rebuild_branch :
    ∀ (l : CratesIODumpLoader) (w : OpenWorld) (f0 : String)
      (rest : List String) (t1 t2 : Nat),
      l.files = f0 :: rest →
      (w.fs l.sqlite_path).exists' = true →
      (w.fs (joinPath l.target_path f0)).exists' = false →
      (w.fs l.sqlite_path).created = .ok t1 →
      (w.fs (joinPath l.target_path f0)).created = .ok t2 →
      t1 ≤ t2 →
      w.removeFile = .ok () →
      w.connOpen = .ok () →
      w.loadModule = .ok () →
      w.execBatch = .ok () →
      l.open_db w
        = .out [.removedDb, .connOpened, .moduleLoaded,
                .batchExecuted l.schemaBatch] (.ok ()) := by
  intro l w f0 rest t1 t2 hf hdb hsent ht1 ht2 hle hrm hc hm he
  simp [CratesIODumpLoader.open_db, open_db_decision,
    CratesIODumpLoader.load_dump_into, hf, hdb, hsent, ht1, ht2, hle,
    hrm, hc, hm, he]

/-- Witness for C1 at a concrete loader and world. -/
theorem c1_rebuild_branch_witness :
    CratesIODumpLoader.open_db
        { resource := "r", files := ["crates.csv"], cache := ⟨0⟩,
          target_path := "data", preload := false, table_schema := [] }
        { fs := fun p => if p = "data/db.sqlite" then ⟨true, .ok 3⟩
            else ⟨false, .ok 9⟩,
          removeFile := .ok (), connOpen := .ok (), loadModule := .ok (),
          execBatch := .ok () }
      = .out [.removedDb, .connOpened, .moduleLoaded,
          .batchExecuted (CratesIODumpLoader.schemaBatch
            { resource := "r", files := ["crates.csv"], cache := ⟨0⟩,
              target_path := "data", preload := false,
              table_schema := [] })] (.ok ()) :=
  c1_rebuild_branch
    { resource := "r", files := ["crates.csv"], cache := ⟨0⟩,
      target_path := "data", preload := false, table_schema := [] }
    { fs := fun p => if p = "data/db.sqlite" then ⟨true, .ok 3⟩
        else ⟨false, .ok 9⟩,
      removeFile := .ok (), connOpen := .ok (), loadModule := .ok (),
      execBatch := .ok () }
    "crates.csv" [] 3 9 rfl (by decide) (by decide) (by decide) (by decide)
    (by decide) rfl rfl rfl rfl

/-- When every entry reads successfully and every requested unpack
succeeds, the extraction loop unpacks exactly the entries whose base name
is requested, in order, to `<target>/<base-name>`. -/
theorem unpack_entries_all_ok (files : List String) (target : String) :
    ∀ (es : List (Except IOErr ArchiveEntry)),
      (∀ x ∈ es, ∃ ent, x = Except.ok ent ∧ ent.unpackRes = .ok ()) →
      CratesIODumpLoader.unpack_entries files target es
        = .out (extractTargets files target es) (.ok ()) := by
  intro es
  induction es with
  | nil =>
    intro _
    simp [CratesIODumpLoader.unpack_entries, extractTargets]
  | cons x rest ih =>
    intro hall
    obtain ⟨ent, hx, hup⟩ := hall x (List.mem_cons_self x rest)
    subst hx
    have hrest := ih (fun y hy => hall y (List.mem_cons_of_mem _ hy))
    by_cases hc : (fileName (ent.pathRes.getD "")).getD "" ∈ files
    · simp [CratesIODumpLoader.unpack_entries, hc, hup, hrest,
        extractTargets, entryBaseName, List.filter_cons]
    · simp [CratesIODumpLoader.unpack_entries, hc, hrest,
        extractTargets, entryBaseName, List.filter_cons]

/-- C7: during a clean extraction in `update`, an entry is unpacked to
`<destination>/<base-name>` exactly when its base file name is one of the
requested files, and all other entries are skipped: the event list is the
membership filter of the entry list, in archive order. -/
theorem c7_selective_extraction :
    ∀ (l : CratesIODumpLoader) (w : UpdateWorld) (f0 : String)
      (rest : List String) (path : String)
      (es : List (Except IOErr ArchiveEntry)),
      l.files = f0 :: rest →
      w.cachedPath = .ok path →
      (w.fs (joinPath l.target_path f0)).exists' = false →
      w.openArchive = .ok () →
      w.createDir = .ok () →
      w.entriesRes = .ok es →
      (∀ x ∈ es, ∃ ent, x = Except.ok ent ∧ ent.unpackRes = .ok ()) →
      l.update w = .out (extractTargets l.files l.target_path es) (.ok ()) := by
  intro l w f0 rest path es hf hcp hsent hoa hcd hes hall
  have hstep : l.update w
      = CratesIODumpLoader.unpack_entries (f0 :: rest) l.target_path es := by
    simp [CratesIODumpLoader.update, CratesIODumpLoader.update_extract,
      hf, hcp, hsent, hoa, hcd, hes]
  rw [hstep, hf]
  exact unpack_entries_all_ok (f0 :: rest) l.target_path es hall

/-- Witness for C7: a two-entry archive where only `crates.csv` is
requested extracts exactly `data/crates.csv`. -/
theorem c7_selective_extraction_witness :
    CratesIODumpLoader.update
        { resource := "r", files := ["crates.csv"], cache := ⟨0⟩,
          target_path := "data", preload := false, table_schema := [] }
        { cachedPath := .ok "arch", fs := fun _ => ⟨false, .ok 0⟩,
          openArchive := .ok (), createDir := .ok (),
          entriesRes := .ok [.ok ⟨some "2024-01-01/crates.csv", .ok ()⟩,
                             .ok ⟨some "2024-01-01/versions.csv", .ok ()⟩] }
      = .out (extractTargets ["crates.csv"] "data"
          [.ok ⟨some "2024-01-01/crates.csv", .ok ()⟩,
           .ok ⟨some "2024-01-01/versions.csv", .ok ()⟩]) (.ok ()) := by
  have h := c7_selective_extraction
    { resource := "r", files := ["crates.csv"], cache := ⟨0⟩,
      target_path := "data", preload := false, table_schema := [] }
    { cachedPath := .ok "arch", fs := fun _ => ⟨false, .ok 0⟩,
      openArchive := .ok (), createDir := .ok (),
      entriesRes := .ok [.ok ⟨some "2024-01-01/crates.csv", .ok ()⟩,
                         .ok ⟨some "2024-01-01/versions.csv", .ok ()⟩] }
    "crates.csv" [] "arch"
    [.ok ⟨some "2024-01-01/crates.csv", .ok ()⟩,
     .ok ⟨some "2024-01-01/versions.csv", .ok ()⟩]
    rfl rfl (by decide) rfl rfl rfl ?hall
  · exact h
  · intro x hx
    simp only [List.mem_cons, List.not_mem_nil, or_false] at hx
    rcases hx with h1 | h2
    · exact ⟨_, h1, rfl⟩
    · exact ⟨_, h2, rfl⟩

/-- The extraction loop never panics when every entry reads successfully. -/
theorem unpack_entries_ne_panic (files : List String) (target : String) :
    ∀ es, (∀ x ∈ es, ∃ ent, x = Except.ok ent) →
      CratesIODumpLoader.unpack_entries files target es ≠ .panic := by
  intro es
  induction es with
  | nil => intro _; simp [CratesIODumpLoader.unpack_entries]
  | cons x rest ih =>
    intro hall
    obtain ⟨ent, hx⟩ := hall x (List.mem_cons_self x rest)
    subst hx
    have hrest := ih (fun y hy => hall y (List.mem_cons_of_mem _ hy))
    by_cases hc : (fileName (ent.pathRes.getD "")).getD "" ∈ files
    · cases hup : ent.unpackRes with
      | error e => simp [CratesIODumpLoader.unpack_entries, hc, hup]
      | ok u =>
        cases hrec : CratesIODumpLoader.unpack_entries files target rest with
        | panic => exact absurd hrec hrest
        | out evs r => simp [CratesIODumpLoader.unpack_entries, hc, hup, hrec]
    · simpa [CratesIODumpLoader.unpack_entries, hc] using hrest

/-- `load_dump_into` never panics. -/
theorem load_dump_into_ne_panic (l : CratesIODumpLoader) (w : OpenWorld) :
    l.load_dump_into w ≠ .panic := by
  cases h : w.execBatch <;> simp [CratesIODumpLoader.load_dump_into, h]

/-- C9 (amended): with a non-empty file list the sentinel first-element
accesses never panic: `open_db` never panics at all, and `update` never
panics provided the archive entries iterator and every entry read succeed
(the remaining panics of `update` come from those `unwrap`s, not from the
sentinel access). -/
theorem c9_no_sentinel_panic :
    (∀ (l : CratesIODumpLoader) (w : OpenWorld),
      l.files ≠ [] → l.open_db w ≠ .panic) ∧
    (∀ (l : CratesIODumpLoader) (w : UpdateWorld),
      l.files ≠ [] → EntriesOk w → l.update w ≠ .panic) := by
  constructor
  · intro l w hne
    cases hf : l.files with
    | nil => exact absurd hf hne
    | cons f0 rest =>
      unfold CratesIODumpLoader.open_db
      rw [hf]
      cases hd : open_db_decision w l.sqlite_path
          (joinPath l.target_path f0) with
      | error e => simp [hd]
      | ok r =>
        obtain ⟨sl, evs0⟩ := r
        cases hc : w.connOpen with
        | error e => simp [hd, hc]
        | ok u =>
          cases hm : w.loadModule with
          | error e => simp [hd, hc, hm]
          | ok u2 =>
            cases sl with
            | false => simp [hd, hc, hm]
            | true =>
              cases hl : l.load_dump_into w with
              | panic => exact absurd hl (load_dump_into_ne_panic l w)
              | out evs2 r2 => simp [hd, hc, hm, hl]
  · intro l w hne hok
    obtain ⟨es, hes, hall⟩ := hok
    have hext : l.update_extract w ≠ .panic := by
      unfold CratesIODumpLoader.update_extract
      cases hoa : w.openArchive with
      | error e => simp
      | ok u =>
        cases hcd : w.createDir with
        | error e => simp
        | ok u2 =>
          rw [hes]
          exact unpack_entries_ne_panic l.files l.target_path es hall
    cases hcp : w.cachedPath with
    | error e => simp [CratesIODumpLoader.update, hcp]
    | ok path =>
      cases hf : l.files with
      | nil => exact absurd hf hne
      | cons f0 rest =>
        by_cases hex : (w.fs (joinPath l.target_path f0)).exists' = true
        · cases h1 : (w.fs path).created with
          | error e => simp [CratesIODumpLoader.update, hcp, hf, hex, h1]
          | ok t1 =>
            cases h2 : (w.fs (joinPath l.target_path f0)).created with
            | error e =>
              simp [CratesIODumpLoader.update, hcp, hf, hex, h1, h2]
            | ok t2 =>
              by_cases hle : t1 ≤ t2
              · simp [CratesIODumpLoader.update, hcp, hf, hex, h1, h2, hle]
              · simpa [CratesIODumpLoader.update, hcp, hf, hex, h1, h2, hle]
                  using hext
        · simpa [CratesIODumpLoader.update, hcp, hf, hex] using hext

/-- Witness for C9 (amended): on a concrete non-empty config with readable
entries, `update` does not panic. -/
theorem c9_no_sentinel_panic_witness :
    CratesIODumpLoader.update
        { resource := "r", files := ["crates.csv"], cache := ⟨0⟩,
          target_path := "data", preload := false, table_schema := [] }
        { cachedPath := .ok "arch", fs := fun _ => ⟨false, .ok 0⟩,
          openArchive := .ok (), createDir := .ok (),
          entriesRes := .ok [.ok ⟨some "crates.csv", .ok ()⟩] }
      ≠ .panic := by
  refine c9_no_sentinel_panic.2
    { resource := "r", files := ["crates.csv"], cache := ⟨0⟩,
      target_path := "data", preload := false, table_schema := [] }
    { cachedPath := .ok "arch", fs := fun _ => ⟨false, .ok 0⟩,
      openArchive := .ok (), createDir := .ok (),
      entriesRes := .ok [.ok ⟨some "crates.csv", .ok ()⟩] }
    (by decide) ⟨[.ok ⟨some "crates.csv", .ok ()⟩], rfl, ?_⟩
  intro x hx
  simp only [List.mem_cons, List.not_mem_nil, or_false] at hx
  exact ⟨_, hx⟩

/-- Counterexample to C9 as stated: a config with a non-empty file list on
which `update` panics (the `archive.entries().unwrap()` fails), so `update`
is not total for every such config. -/
theorem c9_counterexample :
    CratesIODumpLoader.update
        { resource := "r", files := ["crates.csv"], cache := ⟨0⟩,
          target_path := "data", preload := false, table_schema := [] }
        { cachedPath := .ok "arch", fs := fun _ => ⟨false, .ok 0⟩,
          openArchive := .ok (), createDir := .ok (),
          entriesRes := .error ⟨3⟩ }
      = .panic ∧
    ({ resource := "r", files := ["crates.csv"], cache := ⟨0⟩,
       target_path := "data", preload := false,
       table_schema := [] } : CratesIODumpLoader).files ≠ [] := by
  exact ⟨by decide, by decide⟩

/-- C3 (amended): during `update`, a failure to open the cached archive, to
create the destination directory, or an I/O failure while unpacking a
requested entry returns `IOError`; but a failure to obtain the entries
iterator, or to read an individual entry, causes a panic instead. -/
theorem c3_amended_error_kinds :
    ∀ (l : CratesIODumpLoader) (w : UpdateWorld) (f0 : String)
      (rest : List String) (path : String),
      l.files = f0 :: rest →
      w.cachedPath = .ok path →
      (w.fs (joinPath l.target_path f0)).exists' = false →
      ((∀ e, w.openArchive = .error e →
          l.update w = .out [] (.error (.IOError e))) ∧
       (∀ e, w.openArchive = .ok () → w.createDir = .error e →
          l.update w = .out [] (.error (.IOError e))) ∧
       (∀ e, w.openArchive = .ok () → w.createDir = .ok () →
          w.entriesRes = .error e → l.update w = .panic) ∧
       (∀ e es, w.openArchive = .ok () → w.createDir = .ok () →
          w.entriesRes = .ok (.error e :: es) → l.update w = .panic) ∧
       (∀ ent es e, w.openArchive = .ok () → w.createDir = .ok () →
          w.entriesRes = .ok (.ok ent :: es) →
          (fileName (ent.pathRes.getD "")).getD "" ∈ l.files →
          ent.unpackRes = .error e →
          l.update w = .out [] (.error (.IOError e)))) := by
  intro l w f0 rest path hf hcp hsent
  refine ⟨?_, ?_, ?_, ?_, ?_⟩
  · intro e hoa
    simp [CratesIODumpLoader.update, CratesIODumpLoader.update_extract,
      hf, hcp, hsent, hoa]
  · intro e hoa hcd
    simp [CratesIODumpLoader.update, CratesIODumpLoader.update_extract,
      hf, hcp, hsent, hoa, hcd]
  · intro e hoa hcd hes
    simp [CratesIODumpLoader.update, CratesIODumpLoader.update_extract,
      hf, hcp, hsent, hoa, hcd, hes]
  · intro e es hoa hcd hes
    simp [CratesIODumpLoader.update, CratesIODumpLoader.update_extract,
      CratesIODumpLoader.unpack_entries, hf, hcp, hsent, hoa, hcd, hes]
  · intro ent es e hoa hcd hes hmem hup
    rw [hf] at hmem
    simp [CratesIODumpLoader.update, CratesIODumpLoader.update_extract,
      CratesIODumpLoader.unpack_entries, hf, hcp, hsent, hoa, hcd, hes,
      hmem, hup]

/-- Witness for C3 (amended): an archive-open failure yields `IOError`. -/
theorem c3_amended_error_kinds_witness :
    CratesIODumpLoader.update
        { resource := "r", files := ["crates.csv"], cache := ⟨0⟩,
          target_path := "data", preload := false, table_schema := [] }
        { cachedPath := .ok "arch", fs := fun _ => ⟨false, .ok 0⟩,
          openArchive := .error ⟨5⟩, createDir := .ok (),
          entriesRes := .ok [] }
      = .out [] (.error (.IOError ⟨5⟩)) :=
  (c3_amended_error_kinds
    { resource := "r", files := ["crates.csv"], cache := ⟨0⟩,
      target_path := "data", preload := false, table_schema := [] }
    { cachedPath := .ok "arch", fs := fun _ => ⟨false, .ok 0⟩,
      openArchive := .error ⟨5⟩, createDir := .ok (),
      entriesRes := .ok [] }
    "crates.csv" [] "arch" rfl rfl (by decide)).1 ⟨5⟩ rfl

/-- Counterexample to C3 as stated: an archive entry that cannot be read
makes `update` panic rather than return an `IOError`. -/
theorem c3_counterexample :
    CratesIODumpLoader.update
        { resource := "r", files := ["crates.csv"], cache := ⟨0⟩,
          target_path := "data", preload := false, table_schema := [] }
        { cachedPath := .ok "arch", fs := fun _ => ⟨false, .ok 0⟩,
          openArchive := .ok (), createDir := .ok (),
          entriesRes := .ok [.error ⟨7⟩] }
      = .panic := by
  decide

/-- The freshness decision contributes no events besides (possibly) the
database-file removal. -/
theorem open_db_decision_events (w : OpenWorld) (p f : String)
    (r : Bool × List Event) (h : open_db_decision w p f = .ok r) :
    r.2 = [] ∨ r.2 = [.removedDb] := by
  unfold open_db_decision at h
  by_cases h1 : (w.fs p).exists' = true
  · rw [if_neg (not_not_intro h1)] at h
    by_cases h2 : (w.fs f).exists' = true
    · rw [if_neg (not_not_intro h2)] at h
      cases h; simp
    · rw [if_pos h2, if_pos h1] at h
      cases hc1 : (w.fs p).created with
      | error e => rw [hc1] at h; cases h
      | ok t1 =>
        rw [hc1] at h
        cases hc2 : (w.fs f).created with
        | error e => rw [hc2] at h; cases h
        | ok t2 =>
          rw [hc2] at h
          have h2 : (if t1 ≤ t2 then
              match w.removeFile with
              | Except.error e => Except.error e
              | Except.ok _ => Except.ok (true, [Event.removedDb])
            else Except.ok (false, [])) = Except.ok r := h
          by_cases hle : t1 ≤ t2
          · rw [if_pos hle] at h2
            cases hrm : w.removeFile with
            | error e => rw [hrm] at h2; cases h2
            | ok u => rw [hrm] at h2; cases h2; simp
          · rw [if_neg hle] at h2; cases h2; simp
  · rw [if_pos h1] at h
    cases h; simp

/-- C6: `open_db` with no database file opens it and executes the schema
batch; with an existing database file and existing sentinel it opens and
returns without executing any schema statement; and in every non-panicking
run the CSV module is loaded on the handle before any batch execution. -/
theorem c6_open_db_branches :
    (∀ (l : CratesIODumpLoader) (w : OpenWorld) (f0 : String)
       (rest : List String),
      l.files = f0 :: rest →
      (w.fs l.sqlite_path).exists' = false →
      w.connOpen = .ok () → w.loadModule = .ok () → w.execBatch = .ok () →
      l.open_db w = .out [.connOpened, .moduleLoaded,
        .batchExecuted l.schemaBatch] (.ok ())) ∧
    (∀ (l : CratesIODumpLoader) (w : OpenWorld) (f0 : String)
       (rest : List String),
      l.files = f0 :: rest →
      (w.fs l.sqlite_path).exists' = true →
      (w.fs (joinPath l.target_path f0)).exists' = true →
      w.connOpen = .ok () → w.loadModule = .ok () →
      l.open_db w = .out [.connOpened, .moduleLoaded] (.ok ())) ∧
    (∀ (l : CratesIODumpLoader) (w : OpenWorld) (evs : List Event)
       (r : Except Error Unit),
      l.open_db w = .out evs r → moduleBeforeBatch evs false = true) := by
  refine ⟨?_, ?_, ?_⟩
  · intro l w f0 rest hf hdb hc hm he
    simp [CratesIODumpLoader.open_db, open_db_decision,
      CratesIODumpLoader.load_dump_into, hf, hdb, hc, hm, he]
  · intro l w f0 rest hf hdb hsent hc hm
    simp [CratesIODumpLoader.open_db, open_db_decision, hf, hdb, hsent,
      hc, hm]
  · intro l w evs r h
    cases hf : l.files with
    | nil => simp [CratesIODumpLoader.open_db, hf] at h
    | cons f0 rest =>
      cases hd : open_db_decision w l.sqlite_path
          (joinPath l.target_path f0) with
      | error e =>
        simp [CratesIODumpLoader.open_db, hf, hd] at h
        rcases h with ⟨rfl, rfl⟩
        simp [moduleBeforeBatch]
      | ok r0 =>
        obtain ⟨sl, evs0⟩ := r0
        have hevs0 := open_db_decision_events w _ _ _ hd
        simp only [] at hevs0
        cases hc : w.connOpen with
        | error e =>
          simp [CratesIODumpLoader.open_db, hf, hd, hc] at h
          rcases h with ⟨rfl, rfl⟩
          rcases hevs0 with rfl | rfl <;> simp [moduleBeforeBatch]
        | ok u =>
          cases hm : w.loadModule with
          | error e =>
            simp [CratesIODumpLoader.open_db, hf, hd, hc, hm] at h
            rcases h with ⟨rfl, rfl⟩
            rcases hevs0 with rfl | rfl <;> simp [moduleBeforeBatch]
          | ok u2 =>
            cases sl with
            | false =>
              simp [CratesIODumpLoader.open_db, hf, hd, hc, hm] at h
              rcases h with ⟨rfl, rfl⟩
              rcases hevs0 with rfl | rfl <;> simp [moduleBeforeBatch]
            | true =>
              cases he : w.execBatch with
              | error e2 =>
                simp [CratesIODumpLoader.open_db,
                  CratesIODumpLoader.load_dump_into, hf, hd, hc, hm, he] at h
                rcases h with ⟨rfl, rfl⟩
                rcases hevs0 with rfl | rfl <;> simp [moduleBeforeBatch]
              | ok u3 =>
                simp [CratesIODumpLoader.open_db,
                  CratesIODumpLoader.load_dump_into, hf, hd, hc, hm, he] at h
                rcases h with ⟨rfl, rfl⟩
                rcases hevs0 with rfl | rfl <;> simp [moduleBeforeBatch]

/-- Witness for C6: the fresh (no-database) branch at a concrete config. -/
theorem c6_open_db_branches_witness :
    CratesIODumpLoader.open_db
        { resource := "r", files := ["crates.csv"], cache := ⟨0⟩,
          target_path := "data", preload := false, table_schema := [] }
        { fs := fun _ => ⟨false, .ok 0⟩, removeFile := .ok (),
          connOpen := .ok (), loadModule := .ok (), execBatch := .ok () }
      = .out [.connOpened, .moduleLoaded,
          .batchExecuted (CratesIODumpLoader.schemaBatch
            { resource := "r", files := ["crates.csv"], cache := ⟨0⟩,
              target_path := "data", preload := false,
              table_schema := [] })] (.ok ()) :=
  c6_open_db_branches.1
    { resource := "r", files := ["crates.csv"], cache := ⟨0⟩,
      target_path := "data", preload := false, table_schema := [] }
    { fs := fun _ => ⟨false, .ok 0⟩, removeFile := .ok (),
      connOpen := .ok (), loadModule := .ok (), execBatch := .ok () }
    "crates.csv" [] rfl rfl rfl rfl rfl

end Cratesio
